import Mathlib

/-
Shallow embedding of the range-estimation core of
MSpiechowicz/estimate-electric-car-range.

JavaScript numbers are modelled as exact rationals (ℚ).  Every arithmetic
operation the program performs on finite inputs stays finite except the final
division in calculateRangeKm, whose divisor can be zero; a non-finite JS value
(Infinity or NaN) arising there is modelled as `none : Option ℤ`
(Math.round maps a non-finite value to itself, so non-finiteness survives the
rounding and propagates into the result object).

The repository carries two calibrations of the model (its spec flags this in
the design notes).  The canonical one - the piecewise speed model whose
constants live in src/lib/constants/calculations.ts and whose factor functions
are exercised by src/lib/utils/tests/rangeCalculator.svelte.test.ts - is
embedded in the EstimateRange namespace.  The older blend calibration kept in
src/lib/utils/rangeCalculator.svelte.ts differs only in calculateSpeedFactor
and calculateTempFactor; its temperature factor is embedded in
EstimateRange.Legacy.
-/

namespace EstimateRange

/-- JavaScript Math.round on a finite value: round half toward positive
infinity, i.e. the floor of x + 1/2. -/
def jsRound (x : ℚ) : ℤ := ⌊x + 1/2⌋

/-- Constant from src/lib/constants/calculations.ts: conversion factor from
kWh/100 km to Wh/km. -/
def CONVERSION_FACTOR : ℚ := 10

/-- Constant from src/lib/constants/calculations.ts: conversion factor from
km to miles. -/
def MILES_PER_KM : ℚ := 0.621371

/-- Constant from src/lib/constants/calculations.ts: cap on recuperation
effectiveness. -/
def MAX_RECUPERATION_EFFECTIVENESS : ℚ := 0.25

/-- Constant from src/lib/constants/calculations.ts: fraction of energy
normally spent overcoming drag. -/
def AERODYNAMIC_DRAG_SHARE : ℚ := 0.6

/-- Constant from src/lib/constants/calculations.ts: ideal temperature for
battery efficiency. -/
def IDEAL_TEMP : ℚ := 22

/-- Constant from src/lib/constants/calculations.ts: cold penalty per degree
below ideal. -/
def COLD_PENALTY_PER_DEGREE : ℚ := 0.015

/-- Constant from src/lib/constants/calculations.ts: hot penalty per degree
above ideal. -/
def HOT_PENALTY_PER_DEGREE : ℚ := 0.01

/-- Constant from src/lib/constants/calculations.ts: low speed threshold in
km/h. -/
def LOW_SPEED_THRESHOLD : ℚ := 20

/-- Constant from src/lib/constants/calculations.ts: high speed threshold in
km/h. -/
def HIGH_SPEED_THRESHOLD : ℚ := 100

/-- Constant from src/lib/constants/calculations.ts: very high speed
threshold in km/h. -/
def VERY_HIGH_SPEED_THRESHOLD : ℚ := 120

/-- Constant from src/lib/constants/calculations.ts: consumption factor at
the low speed threshold. -/
def CONSUMPTION_FACTOR_AT_LOW_SPEED_THRESHOLD : ℚ := 1.05

/-- Constant from src/lib/constants/calculations.ts: consumption factor at
the high speed threshold. -/
def CONSUMPTION_FACTOR_AT_HIGH_SPEED_THRESHOLD : ℚ := 1.25

/-- Constant from src/lib/constants/calculations.ts: consumption factor at
the very high speed threshold. -/
def CONSUMPTION_FACTOR_AT_VERY_HIGH_SPEED_THRESHOLD : ℚ := 1.2

/-- Constant from src/lib/constants/calculations.ts: exponent of the power
law above the very high speed threshold (value 1.0, so Math.pow with this
exponent is the first power). -/
def POWER_FACTOR_ABOVE_VERY_HIGH_SPEED : ℕ := 1

/-- Embedding of calculateSpeedFactor (piecewise calibration): clamp negative
speeds to zero, return the low-threshold factor up to the low threshold,
interpolate linearly on the two middle segments, and apply the power law
above the very high threshold. -/
def calculateSpeedFactor (speed : ℚ) : ℚ :=
  let safeSpeed := max 0 speed
  if safeSpeed ≤ LOW_SPEED_THRESHOLD then
    CONSUMPTION_FACTOR_AT_LOW_SPEED_THRESHOLD
  else if safeSpeed ≤ HIGH_SPEED_THRESHOLD then
    CONSUMPTION_FACTOR_AT_LOW_SPEED_THRESHOLD +
      (safeSpeed - LOW_SPEED_THRESHOLD) / (HIGH_SPEED_THRESHOLD - LOW_SPEED_THRESHOLD) *
        (CONSUMPTION_FACTOR_AT_HIGH_SPEED_THRESHOLD - CONSUMPTION_FACTOR_AT_LOW_SPEED_THRESHOLD)
  else if safeSpeed ≤ VERY_HIGH_SPEED_THRESHOLD then
    CONSUMPTION_FACTOR_AT_HIGH_SPEED_THRESHOLD +
      (safeSpeed - HIGH_SPEED_THRESHOLD) / (VERY_HIGH_SPEED_THRESHOLD - HIGH_SPEED_THRESHOLD) *
        (CONSUMPTION_FACTOR_AT_VERY_HIGH_SPEED_THRESHOLD -
          CONSUMPTION_FACTOR_AT_HIGH_SPEED_THRESHOLD)
  else
    CONSUMPTION_FACTOR_AT_VERY_HIGH_SPEED_THRESHOLD *
      (safeSpeed / VERY_HIGH_SPEED_THRESHOLD) ^ POWER_FACTOR_ABOVE_VERY_HIGH_SPEED

/-- Embedding of calculateWindFactor: neutral below 1 km/h, otherwise blend
the aerodynamic share scaled by the squared air-speed ratio with the
drag-independent share, floored at 0.5. -/
def calculateWindFactor (speed windSpeed : ℚ) : ℚ :=
  if speed < 1 then 1
  else
    let airSpeed := max 0 (speed + windSpeed)
    max 0.5 (1 - AERODYNAMIC_DRAG_SHARE +
      AERODYNAMIC_DRAG_SHARE * (airSpeed / speed) * (airSpeed / speed))

/-- Embedding of calculateTempFactor (piecewise calibration): cold penalty
below the ideal temperature, hot penalty above it. -/
def calculateTempFactor (temperature : ℚ) : ℚ :=
  if temperature < IDEAL_TEMP then
    1 + (IDEAL_TEMP - temperature) * COLD_PENALTY_PER_DEGREE
  else
    1 + (temperature - IDEAL_TEMP) * HOT_PENALTY_PER_DEGREE

/-- Embedding of calculateRecuperationFactor: clamp the input to the interval
from 0 to 100, rescale to the unit interval, and scale the reduction by the
maximum effectiveness. -/
def calculateRecuperationFactor (recuperation : ℚ) : ℚ :=
  1 - min (max recuperation 0) 100 / 100 * MAX_RECUPERATION_EFFECTIVENESS

/-- Embedding of calculateRoadSlopeFactor: two percent per percent of grade,
floored at 0.1. -/
def calculateRoadSlopeFactor (roadSlope : ℚ) : ℚ :=
  max 0.1 (1 + roadSlope * 0.02)

/-- Embedding of calculateConsumptionFactor: convert kWh/100 km to Wh/km. -/
def calculateConsumptionFactor (consumption : ℚ) : ℚ :=
  consumption * CONVERSION_FACTOR

/-- Embedding of calculateEnergyConsumption: the product of the unit-converted
base consumption and the five correction factors. -/
def calculateEnergyConsumption (consumptionFactor speedFactor windFactor tempFactor
    roadSlopeFactor recuperationFactor : ℚ) : ℚ :=
  consumptionFactor * speedFactor * windFactor * tempFactor * roadSlopeFactor *
    recuperationFactor

/-- Embedding of calculateRangeKm, Math.round((battery * 1000) / adjustedWhPerKm).
IEEE division of a finite numerator by zero is the only source of a non-finite
value in the program, and Math.round maps a non-finite value to itself, so the
result is modelled as none exactly when the divisor is zero and as the rounded
quotient otherwise. -/
def calculateRangeKm (battery adjustedWhPerKm : ℚ) : Option ℤ :=
  if adjustedWhPerKm = 0 then none
  else some (jsRound (battery * 1000 / adjustedWhPerKm))

/-- Embedding of calculateRangeMi on a finite km value,
Math.round(rangeKm * MILES_PER_KM). -/
def calculateRangeMi (rangeKm : ℚ) : ℤ :=
  jsRound (rangeKm * MILES_PER_KM)

/-- Snapshot of the car-store fields read by calculateRange. -/
structure CarStore where
  battery : ℚ
  consumption : ℚ
  speed : ℚ

/-- Snapshot of the parameter-store fields read by calculateRange
(src/lib/store/parameterStore.svelte.ts). -/
structure ParameterStore where
  windSpeed : ℚ
  temperature : ℚ
  roadSlope : ℚ
  recuperation : ℚ

/-- Result object of calculateRange; a field is none when the corresponding
JS number is non-finite. -/
structure RangeEstimate where
  rangeKm : Option ℤ
  rangeMi : Option ℤ

/-- Embedding of calculateRange: read the store snapshot, compute the six
factors, combine them, divide into the battery capacity and convert to miles.
A non-finite rangeKm propagates through calculateRangeMi (multiplying and
rounding a non-finite value keeps it non-finite). -/
def calculateRange (car : CarStore) (params : ParameterStore) : RangeEstimate :=
  let speedFactor := calculateSpeedFactor car.speed
  let windFactor := calculateWindFactor car.speed params.windSpeed
  let tempFactor := calculateTempFactor params.temperature
  let recuperationFactor := calculateRecuperationFactor params.recuperation
  let roadSlopeFactor := calculateRoadSlopeFactor params.roadSlope
  let consumptionFactor := calculateConsumptionFactor car.consumption
  let energyConsumption := calculateEnergyConsumption consumptionFactor speedFactor
    windFactor tempFactor roadSlopeFactor recuperationFactor
  match calculateRangeKm car.battery energyConsumption with
  | none => ⟨none, none⟩
  | some k => ⟨some k, some (calculateRangeMi (k : ℚ))⟩

/-- State-passing form of calculateRange: the source function only reads the
two stores (it destructures them and assigns nothing), so its translation
returns the store state unchanged alongside the result. -/
def calculateRangeRun (s : CarStore × ParameterStore) :
    RangeEstimate × (CarStore × ParameterStore) :=
  (calculateRange s.1 s.2, s)

namespace Legacy

/-- Embedding of calculateTempFactor as it stands in the older calibration in
src/lib/utils/rangeCalculator.svelte.ts: below 20 the factor rises by 0.01
per degree, at or above 20 it is 1 plus 0.005 per degree above 30 (so it is
exactly 1 on the interval from 20 to 30). -/
def calculateTempFactor (temperature : ℚ) : ℚ :=
  if temperature < 20 then
    1 + (20 - temperature) * 0.01
  else
    1 + max 0 (temperature - 30) * 0.005

end Legacy

/-- Verification-side abbreviation: the energyConsumption value computed
inside calculateRange from the store snapshot, i.e. the adjusted Wh/km the
final division divides by. -/
def adjustedConsumption (car : CarStore) (params : ParameterStore) : ℚ :=
  calculateEnergyConsumption (calculateConsumptionFactor car.consumption)
    (calculateSpeedFactor car.speed)
    (calculateWindFactor car.speed params.windSpeed)
    (calculateTempFactor params.temperature)
    (calculateRoadSlopeFactor params.roadSlope)
    (calculateRecuperationFactor params.recuperation)

end EstimateRange

namespace EstimateRange

/-- Helper: rounding a nonnegative value never goes below zero. -/
theorem jsRound_nonneg {x : ℚ} (h : 0 ≤ x) : 0 ≤ jsRound x := by
  unfold jsRound
  exact Int.floor_nonneg.mpr (by linarith)

/-- Helper: the speed factor is strictly positive for every real speed. -/
theorem calculateSpeedFactor_pos (speed : ℚ) : 0 < calculateSpeedFactor speed := by
  have h0 : (0 : ℚ) ≤ max 0 speed := le_max_left 0 speed
  simp only [calculateSpeedFactor, LOW_SPEED_THRESHOLD, HIGH_SPEED_THRESHOLD,
    VERY_HIGH_SPEED_THRESHOLD, CONSUMPTION_FACTOR_AT_LOW_SPEED_THRESHOLD,
    CONSUMPTION_FACTOR_AT_HIGH_SPEED_THRESHOLD,
    CONSUMPTION_FACTOR_AT_VERY_HIGH_SPEED_THRESHOLD, POWER_FACTOR_ABOVE_VERY_HIGH_SPEED]
  split_ifs with h1 h2 h3
  · norm_num
  · rw [not_le] at h1
    have : (0 : ℚ) < (max 0 speed - 20) / (100 - 20) := by
      apply div_pos <;> linarith
    nlinarith
  · rw [not_le] at h1 h2
    have hle : (max 0 speed - 100) / (120 - 100) ≤ 1 := by
      rw [div_le_one (by norm_num)]
      linarith
    have hge : (0 : ℚ) ≤ (max 0 speed - 100) / (120 - 100) := by
      apply div_nonneg <;> linarith
    nlinarith
  · rw [not_le] at h3
    have : (0 : ℚ) < max 0 speed / 120 := by
      apply div_pos <;> linarith
    rw [pow_one]
    nlinarith

/-- Helper: the wind factor is never below one half. -/
theorem calculateWindFactor_half_le (speed windSpeed : ℚ) :
    (1 / 2 : ℚ) ≤ calculateWindFactor speed windSpeed := by
  simp only [calculateWindFactor]
  split_ifs with h
  · norm_num
  · exact le_trans (by norm_num) (le_max_left _ _)

/-- Helper: the temperature factor is at least one. -/
theorem calculateTempFactor_one_le (temperature : ℚ) :
    1 ≤ calculateTempFactor temperature := by
  simp only [calculateTempFactor, IDEAL_TEMP, COLD_PENALTY_PER_DEGREE,
    HOT_PENALTY_PER_DEGREE]
  split_ifs with h
  · nlinarith
  · rw [not_lt] at h
    nlinarith

/-- Helper: the road-slope factor is strictly positive. -/
theorem calculateRoadSlopeFactor_pos (roadSlope : ℚ) :
    0 < calculateRoadSlopeFactor roadSlope := by
  simp only [calculateRoadSlopeFactor]
  exact lt_of_lt_of_le (by norm_num) (le_max_left _ _)

/-- Helper: the recuperation factor is at least three quarters. -/
theorem calculateRecuperationFactor_ge (recuperation : ℚ) :
    (0.75 : ℚ) ≤ calculateRecuperationFactor recuperation := by
  simp only [calculateRecuperationFactor, MAX_RECUPERATION_EFFECTIVENESS]
  have h1 : min (max recuperation 0) 100 ≤ 100 := min_le_right _ _
  have h0 : (0 : ℚ) ≤ min (max recuperation 0) 100 :=
    le_min (le_max_right recuperation 0) (by norm_num)
  nlinarith

/-- Helper: a strictly positive base consumption forces a strictly positive
adjusted consumption, whatever the other inputs are. -/
theorem adjustedConsumption_pos (car : CarStore) (params : ParameterStore)
    (hc : 0 < car.consumption) : 0 < adjustedConsumption car params := by
  unfold adjustedConsumption calculateEnergyConsumption
  have hcf : 0 < calculateConsumptionFactor car.consumption := by
    unfold calculateConsumptionFactor CONVERSION_FACTOR
    nlinarith
  have hsf := calculateSpeedFactor_pos car.speed
  have hwf := lt_of_lt_of_le (by norm_num : (0 : ℚ) < 1 / 2)
    (calculateWindFactor_half_le car.speed params.windSpeed)
  have htf := lt_of_lt_of_le (by norm_num : (0 : ℚ) < 1)
    (calculateTempFactor_one_le params.temperature)
  have hrf := calculateRoadSlopeFactor_pos params.roadSlope
  have hqf := lt_of_lt_of_le (by norm_num : (0 : ℚ) < 0.75)
    (calculateRecuperationFactor_ge params.recuperation)
  positivity

/-- Helper: calculateRange rewritten through the adjustedConsumption
abbreviation. -/
theorem calculateRange_eq (car : CarStore) (params : ParameterStore) :
    calculateRange car params =
      match calculateRangeKm car.battery (adjustedConsumption car params) with
      | none => ⟨none, none⟩
      | some k => ⟨some k, some (calculateRangeMi (k : ℚ))⟩ := rfl

end EstimateRange

namespace EstimateRange

/-- C1: for every real speed s, calculateSpeedFactor s follows the four-region
piecewise model with negative inputs clamped to zero first: the constant
low-threshold factor 1.05 for s up to 20 km/h, linear interpolation between
1.05 and 1.25 on (20, 100], linear interpolation between 1.25 and 1.2 on
(100, 120], and the power law 1.2 * (s/120)^1.0 above 120 km/h. -/
theorem speedFactor_piecewise (s : ℚ) :
    (s ≤ 20 → calculateSpeedFactor s = 1.05) ∧
    (20 < s → s ≤ 100 →
      calculateSpeedFactor s = 1.05 + (s - 20) / (100 - 20) * (1.25 - 1.05)) ∧
    (100 < s → s ≤ 120 →
      calculateSpeedFactor s = 1.25 + (s - 100) / (120 - 100) * (1.2 - 1.25)) ∧
    (120 < s → calculateSpeedFactor s = 1.2 * (s / 120) ^ (1 : ℕ)) := by
  refine ⟨?_, ?_, ?_, ?_⟩
  · intro h
    have hm : max 0 s ≤ 20 := max_le (by norm_num) h
    simp only [calculateSpeedFactor, LOW_SPEED_THRESHOLD,
      CONSUMPTION_FACTOR_AT_LOW_SPEED_THRESHOLD]
    rw [if_pos hm]
  · intro h1 h2
    have hm : max 0 s = s := max_eq_right (by linarith)
    simp only [calculateSpeedFactor, LOW_SPEED_THRESHOLD, HIGH_SPEED_THRESHOLD,
      CONSUMPTION_FACTOR_AT_LOW_SPEED_THRESHOLD,
      CONSUMPTION_FACTOR_AT_HIGH_SPEED_THRESHOLD, hm]
    rw [if_neg (not_le.mpr h1), if_pos h2]
  · intro h1 h2
    have hm : max 0 s = s := max_eq_right (by linarith)
    simp only [calculateSpeedFactor, LOW_SPEED_THRESHOLD, HIGH_SPEED_THRESHOLD,
      VERY_HIGH_SPEED_THRESHOLD, CONSUMPTION_FACTOR_AT_LOW_SPEED_THRESHOLD,
      CONSUMPTION_FACTOR_AT_HIGH_SPEED_THRESHOLD,
      CONSUMPTION_FACTOR_AT_VERY_HIGH_SPEED_THRESHOLD, hm]
    rw [if_neg (not_le.mpr (by linarith : (20 : ℚ) < s)),
      if_neg (not_le.mpr h1), if_pos h2]
  · intro h
    have hm : max 0 s = s := max_eq_right (by linarith)
    simp only [calculateSpeedFactor, LOW_SPEED_THRESHOLD, HIGH_SPEED_THRESHOLD,
      VERY_HIGH_SPEED_THRESHOLD, CONSUMPTION_FACTOR_AT_LOW_SPEED_THRESHOLD,
      CONSUMPTION_FACTOR_AT_HIGH_SPEED_THRESHOLD,
      CONSUMPTION_FACTOR_AT_VERY_HIGH_SPEED_THRESHOLD,
      POWER_FACTOR_ABOVE_VERY_HIGH_SPEED, hm]
    rw [if_neg (not_le.mpr (by linarith : (20 : ℚ) < s)),
      if_neg (not_le.mpr (by linarith : (100 : ℚ) < s)),
      if_neg (not_le.mpr h)]

/-- Witness for C1: at 130 km/h the power-law region applies. -/
theorem speedFactor_piecewise_witness :
    calculateSpeedFactor 130 = 1.2 * ((130 : ℚ) / 120) ^ (1 : ℕ) :=
  (speedFactor_piecewise 130).2.2.2 (by norm_num)

/-- C2: calculateTempFactor applies the cold rate 0.015 per degree below the
ideal temperature 22, the hot rate 0.01 per degree above it, is exactly 1 at
22, and the cold penalty rate strictly exceeds the hot penalty rate. -/
theorem tempFactor_ideal22 (t : ℚ) :
    (t < 22 → calculateTempFactor t = 1 + (22 - t) * 0.015) ∧
    (22 < t → calculateTempFactor t = 1 + (t - 22) * 0.01) ∧
    calculateTempFactor 22 = 1 ∧
    HOT_PENALTY_PER_DEGREE < COLD_PENALTY_PER_DEGREE := by
  refine ⟨?_, ?_, ?_, ?_⟩
  · intro h
    simp only [calculateTempFactor, IDEAL_TEMP, COLD_PENALTY_PER_DEGREE]
    rw [if_pos h]
  · intro h
    simp only [calculateTempFactor, IDEAL_TEMP, HOT_PENALTY_PER_DEGREE]
    rw [if_neg (not_lt.mpr (le_of_lt h))]
  · simp only [calculateTempFactor, IDEAL_TEMP, HOT_PENALTY_PER_DEGREE]
    norm_num
  · simp only [HOT_PENALTY_PER_DEGREE, COLD_PENALTY_PER_DEGREE]
    norm_num

/-- Witness for C2: ten degrees below ideal the cold rate applies. -/
theorem tempFactor_ideal22_witness :
    calculateTempFactor 12 = 1 + ((22 : ℚ) - 12) * 0.015 :=
  (tempFactor_ideal22 12).1 (by norm_num)

/-- C4: whenever the base nominal consumption is strictly positive, the
combined adjusted consumption (the product of the unit-converted base
consumption and the five correction factors) is strictly positive, for every
real speed, wind speed, temperature, road slope and recuperation input. -/
theorem energyConsumption_pos (speed windSpeed temperature roadSlope recuperation
    consumption : ℚ) (hc : 0 < consumption) :
    0 < calculateEnergyConsumption (calculateConsumptionFactor consumption)
      (calculateSpeedFactor speed) (calculateWindFactor speed windSpeed)
      (calculateTempFactor temperature) (calculateRoadSlopeFactor roadSlope)
      (calculateRecuperationFactor recuperation) :=
  adjustedConsumption_pos ⟨1, consumption, speed⟩
    ⟨windSpeed, temperature, roadSlope, recuperation⟩ hc

/-- Witness for C4: the adjusted consumption at the default store snapshot is
strictly positive. -/
theorem energyConsumption_pos_witness :
    0 < calculateEnergyConsumption (calculateConsumptionFactor 15)
      (calculateSpeedFactor 77) (calculateWindFactor 77 0)
      (calculateTempFactor 20) (calculateRoadSlopeFactor 0)
      (calculateRecuperationFactor 10) :=
  energyConsumption_pos 77 0 20 0 10 15 (by norm_num)

end EstimateRange

namespace EstimateRange

/-- C6: calculateWindFactor is neutral below 1 km/h; at or above 1 km/h it
equals max(0.5, (1 - 0.6) + 0.6 * (max(0, s + w)/s)^2); with zero wind at
speed at least 1 the factor is exactly 1; and the result is never below 0.5. -/
theorem windFactor_spec (s w : ℚ) :
    (s < 1 → calculateWindFactor s w = 1) ∧
    (1 ≤ s → calculateWindFactor s w =
      max 0.5 ((1 - 0.6) + 0.6 * (max 0 (s + w) / s) ^ 2)) ∧
    (1 ≤ s → calculateWindFactor s 0 = 1) ∧
    (1 / 2 : ℚ) ≤ calculateWindFactor s w := by
  refine ⟨?_, ?_, ?_, calculateWindFactor_half_le s w⟩
  · intro h
    simp only [calculateWindFactor]
    rw [if_pos h]
  · intro h
    simp only [calculateWindFactor, AERODYNAMIC_DRAG_SHARE]
    rw [if_neg (not_lt.mpr h)]
    congr 1
    ring
  · intro h
    have hs : s ≠ 0 := by linarith
    simp only [calculateWindFactor, AERODYNAMIC_DRAG_SHARE]
    rw [if_neg (not_lt.mpr h)]
    have ha : max 0 (s + 0) = s := by
      rw [add_zero]
      exact max_eq_right (by linarith)
    rw [ha, div_self hs]
    norm_num

/-- Witness for C6: below the 1 km/h cutoff the factor is neutral. -/
theorem windFactor_spec_witness : calculateWindFactor (1 / 2) 10 = 1 :=
  (windFactor_spec (1 / 2) 10).1 (by norm_num)

/-- C7: calculateRecuperationFactor is 1 at 0 and 0.75 at 100, it is
monotonically non-increasing over all real inputs, and inputs outside the
interval from 0 to 100 yield exactly the boundary results. -/
theorem recuperationFactor_spec :
    calculateRecuperationFactor 0 = 1 ∧
    calculateRecuperationFactor 100 = 0.75 ∧
    (∀ a b : ℚ, a ≤ b →
      calculateRecuperationFactor b ≤ calculateRecuperationFactor a) ∧
    (∀ r : ℚ, r < 0 → calculateRecuperationFactor r = calculateRecuperationFactor 0) ∧
    (∀ r : ℚ, 100 < r →
      calculateRecuperationFactor r = calculateRecuperationFactor 100) := by
  refine ⟨?_, ?_, ?_, ?_, ?_⟩
  · simp only [calculateRecuperationFactor, MAX_RECUPERATION_EFFECTIVENESS]
    norm_num
  · simp only [calculateRecuperationFactor, MAX_RECUPERATION_EFFECTIVENESS]
    norm_num
  · intro a b hab
    simp only [calculateRecuperationFactor, MAX_RECUPERATION_EFFECTIVENESS]
    have hmono : min (max a 0) 100 ≤ min (max b 0) 100 :=
      min_le_min (max_le_max hab le_rfl) le_rfl
    nlinarith
  · intro r hr
    simp only [calculateRecuperationFactor]
    rw [max_eq_right (le_of_lt hr), max_self]
  · intro r hr
    simp only [calculateRecuperationFactor]
    rw [max_eq_left (by linarith : (0 : ℚ) ≤ r),
      min_eq_right (le_of_lt hr),
      max_eq_left (by norm_num : (0 : ℚ) ≤ (100 : ℚ)),
      min_eq_right (le_refl (100 : ℚ))]

/-- Witness for C7: an input above 100 clamps to the value at 100. -/
theorem recuperationFactor_spec_witness :
    calculateRecuperationFactor 150 = calculateRecuperationFactor 100 :=
  recuperationFactor_spec.2.2.2.2 150 (by norm_num)

/-- C10: the temperature factor of the older calibration kept in
src/lib/utils/rangeCalculator.svelte.ts is at least 1 for every real
temperature, is exactly 1 on the whole interval from 20 to 30 degrees, and is
strictly above 1 outside that interval: its neutral condition is a
ten-degree interval, not a single ideal point, and temperature never
decreases the predicted consumption. -/
theorem legacy_tempFactor_plateau (t : ℚ) :
    1 ≤ Legacy.calculateTempFactor t ∧
    (20 ≤ t → t ≤ 30 → Legacy.calculateTempFactor t = 1) ∧
    (t < 20 → 1 < Legacy.calculateTempFactor t) ∧
    (30 < t → 1 < Legacy.calculateTempFactor t) := by
  refine ⟨?_, ?_, ?_, ?_⟩
  · simp only [Legacy.calculateTempFactor]
    split_ifs with h
    · nlinarith
    · have : (0 : ℚ) ≤ max 0 (t - 30) := le_max_left 0 (t - 30)
      nlinarith
  · intro h1 h2
    simp only [Legacy.calculateTempFactor]
    rw [if_neg (not_lt.mpr h1), max_eq_left (by linarith : t - 30 ≤ (0 : ℚ))]
    norm_num
  · intro h
    simp only [Legacy.calculateTempFactor]
    rw [if_pos h]
    nlinarith
  · intro h
    simp only [Legacy.calculateTempFactor]
    rw [if_neg (not_lt.mpr (by linarith : (20 : ℚ) ≤ t)),
      max_eq_right (by linarith : (0 : ℚ) ≤ t - 30)]
    nlinarith

/-- Witness for C10: at 25 degrees the legacy factor is exactly 1. -/
theorem legacy_tempFactor_plateau_witness : Legacy.calculateTempFactor 25 = 1 :=
  (legacy_tempFactor_plateau 25).2.1 (by norm_num) (by norm_num)

end EstimateRange

namespace EstimateRange

/-- Counterexample for C3: with zero nominal consumption the adjusted
consumption collapses to zero, and calculateRange returns a result object
whose rangeKm and rangeMi are non-finite (modelled as none) instead of
signalling an invalid-input condition: the final division carries no guard. -/
theorem range_no_guard_cex :
    adjustedConsumption ⟨75, 0, 77⟩ ⟨0, 20, 0, 10⟩ = 0 ∧
    calculateRange ⟨75, 0, 77⟩ ⟨0, 20, 0, 10⟩ = ⟨none, none⟩ := by
  have h : adjustedConsumption ⟨75, 0, 77⟩ ⟨0, 20, 0, 10⟩ = 0 := by
    unfold adjustedConsumption calculateEnergyConsumption calculateConsumptionFactor
    norm_num
  refine ⟨h, ?_⟩
  rw [calculateRange_eq, h]
  simp [calculateRangeKm]

/-- C3 (amended): the estimator performs no explicit guard on the final
division; when the adjusted per-km consumption is zero it returns a result
whose fields are non-finite rather than signalling invalid input, and when
the adjusted consumption is nonzero it returns a complete RangeEstimate
built from the rounded quotient. -/
theorem range_division_behavior (car : CarStore) (params : ParameterStore) :
    (adjustedConsumption car params = 0 →
      calculateRange car params = ⟨none, none⟩) ∧
    (adjustedConsumption car params ≠ 0 →
      calculateRange car params =
        ⟨some (jsRound (car.battery * 1000 / adjustedConsumption car params)),
         some (calculateRangeMi
           ((jsRound (car.battery * 1000 / adjustedConsumption car params) : ℤ) : ℚ))⟩) := by
  constructor <;> intro h <;> rw [calculateRange_eq] <;> simp [calculateRangeKm, h]

/-- Witness for C3 (amended): a nonzero adjusted consumption produces the
complete rounded result. -/
theorem range_division_behavior_witness :
    calculateRange ⟨1, 10, 0⟩ ⟨0, 22, 0, 0⟩ =
      ⟨some (jsRound ((1 : ℚ) * 1000 / adjustedConsumption ⟨1, 10, 0⟩ ⟨0, 22, 0, 0⟩)),
       some (calculateRangeMi
         ((jsRound ((1 : ℚ) * 1000 / adjustedConsumption ⟨1, 10, 0⟩ ⟨0, 22, 0, 0⟩) : ℤ) : ℚ))⟩ :=
  (range_division_behavior ⟨1, 10, 0⟩ ⟨0, 22, 0, 0⟩).2 (by
    unfold adjustedConsumption calculateEnergyConsumption calculateConsumptionFactor
      calculateSpeedFactor calculateWindFactor calculateTempFactor
      calculateRecuperationFactor calculateRoadSlopeFactor LOW_SPEED_THRESHOLD
      CONSUMPTION_FACTOR_AT_LOW_SPEED_THRESHOLD IDEAL_TEMP HOT_PENALTY_PER_DEGREE
      MAX_RECUPERATION_EFFECTIVENESS CONVERSION_FACTOR
    norm_num)

/-- C5: for every input with strictly positive battery capacity and strictly
positive nominal consumption, calculateRange returns a complete RangeEstimate
whose rangeKm and rangeMi are integers greater than or equal to zero. -/
theorem range_output_contract (car : CarStore) (params : ParameterStore)
    (hb : 0 < car.battery) (hc : 0 < car.consumption) :
    ∃ k m : ℤ, calculateRange car params = ⟨some k, some m⟩ ∧ 0 ≤ k ∧ 0 ≤ m := by
  have hE := adjustedConsumption_pos car params hc
  have hx : 0 ≤ car.battery * 1000 / adjustedConsumption car params :=
    le_of_lt (div_pos (by nlinarith) hE)
  refine ⟨jsRound (car.battery * 1000 / adjustedConsumption car params),
    calculateRangeMi
      ((jsRound (car.battery * 1000 / adjustedConsumption car params) : ℤ) : ℚ),
    ?_, jsRound_nonneg hx, ?_⟩
  · rw [calculateRange_eq]
    simp [calculateRangeKm, ne_of_gt hE]
  · unfold calculateRangeMi
    apply jsRound_nonneg
    have hk : (0 : ℚ) ≤
        ((jsRound (car.battery * 1000 / adjustedConsumption car params) : ℤ) : ℚ) := by
      exact_mod_cast jsRound_nonneg hx
    have hm : (0 : ℚ) ≤ MILES_PER_KM := by
      unfold MILES_PER_KM
      norm_num
    nlinarith

/-- Witness for C5: the output contract at a concrete valid input. -/
theorem range_output_contract_witness :
    ∃ k m : ℤ, calculateRange ⟨1, 10, 0⟩ ⟨0, 22, 0, 0⟩ = ⟨some k, some m⟩ ∧
      0 ≤ k ∧ 0 ≤ m :=
  range_output_contract ⟨1, 10, 0⟩ ⟨0, 22, 0, 0⟩ (by norm_num) (by norm_num)

/-- C8: whenever the kilometre output of calculateRange is a finite integer k,
the miles output is exactly round(k * 0.621371). -/
theorem rangeMi_roundtrip (car : CarStore) (params : ParameterStore) (k : ℤ)
    (h : (calculateRange car params).rangeKm = some k) :
    (calculateRange car params).rangeMi = some (jsRound ((k : ℚ) * 0.621371)) := by
  rw [calculateRange_eq] at h ⊢
  rcases hE : calculateRangeKm car.battery (adjustedConsumption car params) with _ | j
  · rw [hE] at h
    simp at h
  · rw [hE] at h
    simp at h
    subst h
    simp only [Option.some.injEq]
    unfold calculateRangeMi MILES_PER_KM
    norm_num

/-- Witness for C8: at a concrete input the km output is 10 and the miles
output is round(10 * 0.621371). -/
theorem rangeMi_roundtrip_witness :
    (calculateRange ⟨1, 10, 0⟩ ⟨0, 22, 0, 0⟩).rangeMi =
      some (jsRound ((10 : ℚ) * 0.621371)) :=
  rangeMi_roundtrip ⟨1, 10, 0⟩ ⟨0, 22, 0, 0⟩ 10 (by
    unfold calculateRange calculateRangeKm calculateEnergyConsumption
      calculateConsumptionFactor calculateSpeedFactor calculateWindFactor
      calculateTempFactor calculateRecuperationFactor calculateRoadSlopeFactor
      jsRound LOW_SPEED_THRESHOLD CONSUMPTION_FACTOR_AT_LOW_SPEED_THRESHOLD
      IDEAL_TEMP HOT_PENALTY_PER_DEGREE MAX_RECUPERATION_EFFECTIVENESS
      CONVERSION_FACTOR
    norm_num)

/-- C9: the estimator is deterministic and side-effect-free: its
state-passing form returns the store snapshot unchanged, and running it again
on the state left by a first run yields the identical result. -/
theorem calculateRange_pure (s : CarStore × ParameterStore) :
    (calculateRangeRun s).2 = s ∧
    (calculateRangeRun ((calculateRangeRun s).2)).1 = (calculateRangeRun s).1 :=
  ⟨rfl, rfl⟩

end EstimateRange
